import Mathlib

/-!
# Shallow embedding of `src/lib/defend/mock_telemetry.py`

The repository is a single-file mock telemetry HTTP server.  This file embeds
its request handler (`do_POST`, `do_GET`), the listener bootstrap
(`start_server`, the fixed port table of `main`), and the log-file lifecycle
of `main` as executable Lean definitions, and proves the specification claims
about them.

Modelling conventions:
* bytes are `Nat` (values `< 256` in practice), byte strings are `List Nat`;
* the wall-clock timestamp produced by `time.strftime` is a `String`
  parameter;
* Python exceptions escaping the handler are `Except.error`;
* console output and log-file writes are collected as `List String` fields of
  the result records, one element per `print` call / `f.write` call.
-/

set_option autoImplicit false

namespace MockTelemetry

/-! ## Python `int()` on strings

`do_POST` runs `int(self.headers.get('Content-Length', 0))`.  When the header
is absent `get` returns the default `0` and `int` is the identity; when it is
present `int` parses the string: optional surrounding whitespace, an optional
sign, then base-10 digits possibly grouped by single underscores.  Any other
string raises `ValueError`, modelled by `none`. -/

def isAsciiDigit (c : Char) : Bool := '0' ≤ c && c ≤ '9'

def isPyWhitespace (c : Char) : Bool :=
  c = ' ' || c = '\t' || c = '\n' || c = '\r' || c = '\x0b' || c = '\x0c'

def stripChars (l : List Char) : List Char :=
  ((l.dropWhile isPyWhitespace).reverse.dropWhile isPyWhitespace).reverse

def digitsToNat (l : List Char) : Nat :=
  l.foldl (fun a c => a * 10 + (c.toNat - '0'.toNat)) 0

/-- Digit run with Python underscore grouping: every `_`-separated group is a
nonempty run of digits (this rejects `""`, `"_1"`, `"1_"`, `"1__2"`). -/
def pyDigits? (l : List Char) : Option Nat :=
  if (l.splitOn '_').all (fun p => !p.isEmpty && p.all isAsciiDigit) then
    some (digitsToNat (l.filter (fun c => c ≠ '_')))
  else
    none

/-- Python `int(s)` for a base-10 string; `none` models `ValueError`. -/
def pythonInt (s : String) : Option Int :=
  match stripChars s.toList with
  | '+' :: rest => (pyDigits? rest).map Int.ofNat
  | '-' :: rest => (pyDigits? rest).map (fun n => -(n : Int))
  | l => (pyDigits? l).map Int.ofNat

/-! ## String helpers

Kernel-reducible replacements for the library string routines the source
relies on (`str.lower`, `str.startswith`, slicing), so that concrete runs of
the handler evaluate by `rfl`/`decide`. -/

def lowerChar (c : Char) : Char :=
  if 'A' ≤ c && c ≤ 'Z' then Char.ofNat (c.toNat + 32) else c

/-- ASCII `str.lower()`, as used for case-insensitive header-name
matching. -/
def asciiLower (s : String) : String := String.mk (s.toList.map lowerChar)

def leadsWith (p s : List Char) : Bool :=
  match p, s with
  | [], _ => true
  | a :: as, b :: bs => if a = b then leadsWith as bs else false
  | _, _ => false

/-- Python `s.startswith(p)`. -/
def startswith (s p : String) : Bool := leadsWith p.toList s.toList

/-- Python `s[:n]` on a `str` (first `n` characters). -/
def strTake (s : String) (n : Nat) : String := String.mk (s.toList.take n)

def strIntercalate (sep : String) : List String → String
  | [] => ""
  | [x] => x
  | x :: y :: xs => x ++ sep ++ strIntercalate sep (y :: xs)

/-! ## Header mapping

`BaseHTTPRequestHandler.headers` is an `email.message.Message`; `get` is
case-insensitive on the key and returns the first matching value.
`dict(self.headers)` serializes the mapping for console and log output. -/

def headerGet (hs : List (String × String)) (k : String) : Option String :=
  (hs.find? (fun p => asciiLower p.1 = asciiLower k)).map (fun p => p.2)

/-! ## UTF-8 decoding

`bytes.decode('utf-8')` (strict, used in the `application/json` branch) and
`bytes.decode('utf-8', errors='ignore')` (used for the raw console report and
the log-file data line).  `utf8Step` consumes one well-formed scalar-value
encoding; strictness rejects overlong forms, surrogates and values above
`0x10FFFF`, exactly as CPython's codec does. -/

def isContByte (b : Nat) : Bool := 0x80 ≤ b && b ≤ 0xBF

def utf8Step : List Nat → Option (Nat × List Nat)
  | [] => none
  | b :: rest =>
    if b < 0x80 then some (b, rest)
    else if 0xC2 ≤ b && b ≤ 0xDF then
      match rest with
      | b2 :: r2 =>
        if isContByte b2 then some ((b - 0xC0) * 0x40 + (b2 - 0x80), r2) else none
      | [] => none
    else if 0xE0 ≤ b && b ≤ 0xEF then
      match rest with
      | b2 :: b3 :: r3 =>
        let lo2 : Nat := if b = 0xE0 then 0xA0 else 0x80
        let hi2 : Nat := if b = 0xED then 0x9F else 0xBF
        if lo2 ≤ b2 && b2 ≤ hi2 && isContByte b3 then
          some ((b - 0xE0) * 0x1000 + (b2 - 0x80) * 0x40 + (b3 - 0x80), r3)
        else none
      | _ => none
    else if 0xF0 ≤ b && b ≤ 0xF4 then
      match rest with
      | b2 :: b3 :: b4 :: r4 =>
        let lo2 : Nat := if b = 0xF0 then 0x90 else 0x80
        let hi2 : Nat := if b = 0xF4 then 0x8F else 0xBF
        if lo2 ≤ b2 && b2 ≤ hi2 && isContByte b3 && isContByte b4 then
          some ((b - 0xF0) * 0x40000 + (b2 - 0x80) * 0x1000 +
                  (b3 - 0x80) * 0x40 + (b4 - 0x80), r4)
        else none
      | _ => none
    else none

/-- Strict decode to code points; `none` models `UnicodeDecodeError`.  The
fuel is an upper bound on the number of decoded code points; `utf8Step`
consumes at least one byte per step, so `bs.length` always suffices. -/
def utf8DecodeStrictAux : Nat → List Nat → Option (List Nat)
  | _, [] => some []
  | 0, _ :: _ => none
  | fuel + 1, bs =>
    match utf8Step bs with
    | none => none
    | some (cp, rest) => (utf8DecodeStrictAux fuel rest).map (fun l => cp :: l)

def utf8DecodeStrict (bs : List Nat) : Option String :=
  (utf8DecodeStrictAux bs.length bs).map (fun l => String.mk (l.map Char.ofNat))

/-- Decode with `errors='ignore'`: an undecodable byte is skipped and decoding
resumes at the next byte.  Never fails. -/
def utf8DecodeIgnoreAux : Nat → List Nat → List Nat
  | _, [] => []
  | 0, _ :: _ => []
  | fuel + 1, b :: rest =>
    match utf8Step (b :: rest) with
    | some (cp, r) => cp :: utf8DecodeIgnoreAux fuel r
    | none => utf8DecodeIgnoreAux fuel rest

def utf8DecodeIgnore (bs : List Nat) : String :=
  String.mk ((utf8DecodeIgnoreAux bs.length bs).map Char.ofNat)

/-! ## `json.loads`

The `application/json` branch of `do_POST` runs `json.loads` on the decoded
body and prints the resulting Python object.  `PyJson` is the shape of such an
object; floats are kept as their source lexeme (`floatLit`), since no claim
depends on float arithmetic.  `json.loads` follows RFC 8259 plus CPython's
extensions `NaN`, `Infinity` and `-Infinity`; a parse failure
(`JSONDecodeError`) is `none`. -/

mutual

inductive PyJson where
  | null
  | bool (b : Bool)
  | int (i : Int)
  | floatLit (lit : String)
  | str (s : String)
  | arr (elems : PyJsonList)
  | obj (members : PyJsonObj)

/-- A JSON array's elements (a plain list, spelled out so that all
recursions below are structural). -/
inductive PyJsonList where
  | nil
  | cons (hd : PyJson) (tl : PyJsonList)

/-- A JSON object's members in insertion order. -/
inductive PyJsonObj where
  | onil
  | ocons (key : String) (val : PyJson) (tl : PyJsonObj)

end

def PyJsonList.snoc : PyJsonList → PyJson → PyJsonList
  | .nil, v => .cons v .nil
  | .cons h t, v => .cons h (t.snoc v)

def PyJsonObj.snoc : PyJsonObj → String → PyJson → PyJsonObj
  | .onil, k, v => .ocons k v .onil
  | .ocons k2 v2 t, k, v => .ocons k2 v2 (t.snoc k v)

def PyJsonObj.hasKey : PyJsonObj → String → Bool
  | .onil, _ => false
  | .ocons k2 _ t, k => k2 = k || t.hasKey k

def PyJsonObj.setKey : PyJsonObj → String → PyJson → PyJsonObj
  | .onil, _, _ => .onil
  | .ocons k2 v2 t, k, v =>
    if k2 = k then .ocons k v (t.setKey k v) else .ocons k2 v2 (t.setKey k v)

def skipJsonWs (cs : List Char) : List Char :=
  cs.dropWhile (fun c => c = ' ' || c = '\t' || c = '\n' || c = '\r')

def hexVal? (c : Char) : Option Nat :=
  let n := c.toNat
  if 48 ≤ n && n ≤ 57 then some (n - 48)
  else if 97 ≤ n && n ≤ 102 then some (n - 87)
  else if 65 ≤ n && n ≤ 70 then some (n - 55)
  else none

/-- Body of a JSON string after the opening quote, strict mode: raw control
characters are rejected, the usual escapes are recognised.  (Surrogate-pair
recombination of consecutive `\uXXXX` escapes is not modelled; no claim
involves non-BMP escapes.) -/
def jString : Nat → List Char → Option (List Char × List Char)
  | 0, _ => none
  | _ + 1, [] => none
  | fuel + 1, c :: r =>
    if c = '"' then some ([], r)
    else if c = '\\' then
      match r with
      | [] => none
      | e :: r1 =>
        let esc? : Option (Char × List Char) :=
          if e = '"' then some ('"', r1)
          else if e = '\\' then some ('\\', r1)
          else if e = '/' then some ('/', r1)
          else if e = 'b' then some ('\x08', r1)
          else if e = 'f' then some ('\x0c', r1)
          else if e = 'n' then some ('\n', r1)
          else if e = 'r' then some ('\r', r1)
          else if e = 't' then some ('\t', r1)
          else if e = 'u' then
            match r1 with
            | h1 :: h2 :: h3 :: h4 :: r2 =>
              match hexVal? h1, hexVal? h2, hexVal? h3, hexVal? h4 with
              | some a, some b, some c3, some d =>
                some (Char.ofNat (((a * 16 + b) * 16 + c3) * 16 + d), r2)
              | _, _, _, _ => none
            | _ => none
          else none
        match esc? with
        | some (ch, r2) => (jString fuel r2).map (fun p => (ch :: p.1, p.2))
        | none => none
    else if c.toNat < 0x20 then none
    else (jString fuel r).map (fun p => (c :: p.1, p.2))

/-- Optional fraction part; on a malformed fraction (`.` without digits) the
number lexeme simply stops before the `.`, as CPython's NUMBER_RE does. -/
def jFracTail (cs : List Char) : List Char × List Char :=
  match cs with
  | '.' :: r =>
    let p := r.span isAsciiDigit
    if p.1.isEmpty then ([], cs) else ('.' :: p.1, p.2)
  | _ => ([], cs)

/-- Optional exponent part, same backtracking convention as `jFracTail`. -/
def jExpTail (cs : List Char) : List Char × List Char :=
  match cs with
  | c :: r =>
    if c = 'e' || c = 'E' then
      match r with
      | s :: r1 =>
        if s = '+' || s = '-' then
          let p := r1.span isAsciiDigit
          if p.1.isEmpty then ([], cs) else (c :: s :: p.1, p.2)
        else
          let p := r.span isAsciiDigit
          if p.1.isEmpty then ([], cs) else (c :: p.1, p.2)
      | [] => ([], cs)
    else ([], cs)
  | [] => ([], cs)

/-- JSON number: `-?(0|[1-9][0-9]*)(\.[0-9]+)?([eE][+-]?[0-9]+)?`.  A pure
integer lexeme becomes `PyJson.int`; otherwise the float lexeme is kept. -/
def jNumber (cs : List Char) : Option (PyJson × List Char) :=
  let sp : List Char × List Char :=
    match cs with
    | '-' :: r => (['-'], r)
    | _ => ([], cs)
  let int? : Option (List Char × List Char) :=
    match sp.2 with
    | '0' :: r => some (['0'], r)
    | c :: r =>
      if isAsciiDigit c then
        let p := r.span isAsciiDigit
        some (c :: p.1, p.2)
      else none
    | [] => none
  match int? with
  | none => none
  | some (ip, r) =>
    let fp := jFracTail r
    let ep := jExpTail fp.2
    if fp.1.isEmpty && ep.1.isEmpty then
      let n : Int := Int.ofNat (digitsToNat ip)
      some (.int (if sp.1.isEmpty then n else -n), r)
    else
      some (.floatLit (String.mk (sp.1 ++ ip ++ fp.1 ++ ep.1)), ep.2)

/-- Duplicate object keys: CPython dicts keep the first insertion position
and the last value. -/
def objInsert (ms : PyJsonObj) (k : String) (v : PyJson) : PyJsonObj :=
  if ms.hasKey k then ms.setKey k v else ms.snoc k v

/-- The literal tokens `json.loads` accepts, with their parsed values: the
JSON keywords plus CPython's `NaN`/`Infinity` extensions (checked ahead of
numbers, so `-Infinity` wins over a malformed negative number). -/
def jsonKeywords : List (String × PyJson) :=
  [("null", .null), ("true", .bool true), ("false", .bool false),
   ("NaN", .floatLit "nan"), ("Infinity", .floatLit "inf"),
   ("-Infinity", .floatLit "-inf")]

def matchKeyword : List (String × PyJson) → List Char → Option (PyJson × List Char)
  | [], _ => none
  | (kw, v) :: rest, cs =>
    if leadsWith kw.toList cs then some (v, cs.drop kw.toList.length)
    else matchKeyword rest cs

mutual

def jValue : Nat → List Char → Option (PyJson × List Char)
  | 0, _ => none
  | fuel + 1, cs =>
    let cs1 := skipJsonWs cs
    match matchKeyword jsonKeywords cs1 with
    | some (v, r) => some (v, r)
    | none =>
      match cs1 with
      | '"' :: r => (jString (r.length + 1) r).map (fun p => (.str (String.mk p.1), p.2))
      | '[' :: r => jArray fuel r
      | '{' :: r => jObject fuel r
      | cs2 => jNumber cs2

def jArray : Nat → List Char → Option (PyJson × List Char)
  | 0, _ => none
  | fuel + 1, cs =>
    match skipJsonWs cs with
    | ']' :: r => some (.arr .nil, r)
    | cs1 =>
      match jValue fuel cs1 with
      | none => none
      | some (v, r) => jArrayRest fuel (.cons v .nil) r

def jArrayRest : Nat → PyJsonList → List Char → Option (PyJson × List Char)
  | 0, _, _ => none
  | fuel + 1, acc, cs =>
    match skipJsonWs cs with
    | ',' :: r =>
      match jValue fuel r with
      | none => none
      | some (v, r1) => jArrayRest fuel (acc.snoc v) r1
    | ']' :: r => some (.arr acc, r)
    | _ => none

def jObject : Nat → List Char → Option (PyJson × List Char)
  | 0, _ => none
  | fuel + 1, cs =>
    match skipJsonWs cs with
    | '}' :: r => some (.obj .onil, r)
    | '"' :: r =>
      match jString (r.length + 1) r with
      | none => none
      | some (k, r1) =>
        match skipJsonWs r1 with
        | ':' :: r2 =>
          match jValue fuel r2 with
          | none => none
          | some (v, r3) => jObjectRest fuel (.ocons (String.mk k) v .onil) r3
        | _ => none
    | _ => none

def jObjectRest : Nat → PyJsonObj → List Char →
    Option (PyJson × List Char)
  | 0, _, _ => none
  | fuel + 1, acc, cs =>
    match skipJsonWs cs with
    | ',' :: r =>
      match skipJsonWs r with
      | '"' :: r1 =>
        match jString (r1.length + 1) r1 with
        | none => none
        | some (k, r2) =>
          match skipJsonWs r2 with
          | ':' :: r3 =>
            match jValue fuel r3 with
            | none => none
            | some (v, r4) => jObjectRest fuel (objInsert acc (String.mk k) v) r4
          | _ => none
      | _ => none
    | '}' :: r => some (.obj acc, r)
    | _ => none

end

/-- `json.loads`: one JSON value, then only whitespace.  Each recursive call
in the parser is preceded by consuming at least one character, so
`s.length + 1` fuel always suffices. -/
def json_loads (s : String) : Option PyJson :=
  match jValue (s.length + 1) s.toList with
  | none => none
  | some (v, rest) => if (skipJsonWs rest).isEmpty then some v else none

/-! ## Python `str`/`repr` conversions used by the f-strings -/

def hexDigitChar (n : Nat) : Char :=
  if n < 10 then Char.ofNat ('0'.toNat + n) else Char.ofNat ('a'.toNat + n - 10)

def hex2 (n : Nat) : String :=
  String.mk [hexDigitChar (n / 16 % 16), hexDigitChar (n % 16)]

def pyCharRepr (q : Char) (c : Char) : String :=
  if c = '\\' then "\\\\"
  else if c = q then "\\" ++ String.singleton q
  else if c = '\n' then "\\n"
  else if c = '\r' then "\\r"
  else if c = '\t' then "\\t"
  else if c.toNat < 0x20 || c.toNat = 0x7f then "\\x" ++ hex2 c.toNat
  else String.singleton c

/-- `repr(s)` for a `str`: single-quoted unless the string contains `'` but
no `"`. -/
def pyStrRepr (s : String) : String :=
  let q : Char := if s.toList.contains '\'' && !s.toList.contains '"' then '"' else '\''
  String.singleton q ++ String.join (s.toList.map (pyCharRepr q)) ++ String.singleton q

mutual

/-- `str(obj)` for an object returned by `json.loads` (what
`print(f"  JSON Data: {json_data}")` interpolates).  For a float the source
lexeme stands in for CPython's float repr. -/
def pyRepr : PyJson → String
  | .null => "None"
  | .bool true => "True"
  | .bool false => "False"
  | .int i => toString i
  | .floatLit lit => lit
  | .str s => pyStrRepr s
  | .arr elems => "[" ++ pyReprList elems ++ "]"
  | .obj ms => "\x7b" ++ pyReprObj ms ++ "\x7d"

def pyReprList : PyJsonList → String
  | .nil => ""
  | .cons h .nil => pyRepr h
  | .cons h (.cons h2 t) => pyRepr h ++ ", " ++ pyReprList (.cons h2 t)

def pyReprObj : PyJsonObj → String
  | .onil => ""
  | .ocons k v .onil => pyStrRepr k ++ ": " ++ pyRepr v
  | .ocons k v (.ocons k2 v2 t) =>
    pyStrRepr k ++ ": " ++ pyRepr v ++ ", " ++ pyReprObj (.ocons k2 v2 t)

end

/-- `repr(b)` for a `bytes` object (the `{post_data[:100]}` interpolation). -/
def pyByteRepr (b : Nat) : String :=
  if b = 0x5C then "\\\\"
  else if b = 0x27 then "\\'"
  else if b = 9 then "\\t"
  else if b = 10 then "\\n"
  else if b = 13 then "\\r"
  else if 0x20 ≤ b && b ≤ 0x7E then String.singleton (Char.ofNat b)
  else "\\x" ++ hex2 b

def pyBytesRepr (bs : List Nat) : String :=
  "b'" ++ String.join (bs.map pyByteRepr) ++ "'"

/-- `{dict(self.headers)}`: Python dict repr of the header mapping, insertion
order preserved. -/
def dictRepr (hs : List (String × String)) : String :=
  "\x7b" ++ strIntercalate ", "
      (hs.map (fun p => pyStrRepr p.1 ++ ": " ++ pyStrRepr p.2)) ++ "\x7d"

/-! ## The request handler (`MockTelemetryHandler`) -/

/-- One incoming HTTP request as the handler sees it: the header mapping (in
arrival order), the byte stream `self.rfile` offers, and
`self.client_address[0]`. -/
structure Request where
  headers : List (String × String)
  stream : List Nat
  client_ip : String
deriving DecidableEq, Repr

structure Response where
  status : Nat
  contentType : String
  body : String
deriving DecidableEq, Repr

/-- Everything observable about one `do_POST` run: the `print` calls, the
`f.write` calls on `intercepted_telemetry.log`, the body bytes that were
read, and the HTTP response. -/
structure PostResult where
  console : List String
  logWrites : List String
  post_data : List Nat
  response : Response
deriving DecidableEq, Repr

/-- `int(self.headers.get('Content-Length', 0))`: the default `0` is already
an `int`; a present header value goes through `int()` and may raise
`ValueError` (`none`). -/
def contentLengthOf (r : Request) : Option Int :=
  match headerGet r.headers "Content-Length" with
  | none => some 0
  | some s => pythonInt s

/-- `self.rfile.read(n)`: at most `n` bytes from the stream; a negative `n`
makes the buffered reader read to end of stream. -/
def readBody (stream : List Nat) (n : Int) : List Nat :=
  if n < 0 then stream else stream.take n.toNat

/-- JSON-escape for `json.dumps` string values (default `ensure_ascii`
escapes non-ASCII as `\uXXXX`; non-BMP surrogate pairs are not modelled, the
interpolated timestamp is plain ASCII). -/
def jsonEscapeChar (c : Char) : String :=
  if c = '"' then "\\\""
  else if c = '\\' then "\\\\"
  else if c = '\n' then "\\n"
  else if c = '\r' then "\\r"
  else if c = '\t' then "\\t"
  else if c.toNat < 0x20 || 0x7F ≤ c.toNat then
    "\\u" ++ hex2 (c.toNat / 256) ++ hex2 (c.toNat % 256)
  else String.singleton c

def jsonEscape (s : String) : String :=
  String.join (s.toList.map jsonEscapeChar)

/-- `json.dumps({"status": "ok", "message": "telemetry received",
"timestamp": timestamp})` with the default separators. -/
def ok_response_body (ts : String) : String :=
  "\x7b\"status\": \"ok\", \"message\": \"telemetry received\", \"timestamp\": \"" ++
    jsonEscape ts ++ "\"\x7d"

/-- `json.dumps({"status": "healthy", "service": "mock-telemetry-server",
"timestamp": timestamp})`. -/
def health_response_body (ts : String) : String :=
  "\x7b\"status\": \"healthy\", \"service\": \"mock-telemetry-server\", \"timestamp\": \"" ++
    jsonEscape ts ++ "\"\x7d"

/-- The `try`/`except` content-interpretation block of `do_POST` (lines
30-42): the lines it prints.  Only the `application/json` branch can raise
(strict UTF-8 decode, `json.loads`); the `except Exception` arm turns either
failure into a single parsing-error line. -/
def analyzeContent (hs : List (String × String)) (post_data : List Nat) :
    List String :=
  let ct := (headerGet hs "Content-Type").getD ""
  if startswith ct "application/json" then
    match utf8DecodeStrict post_data with
    | none => ["  Data parsing error: UnicodeDecodeError"]
    | some decoded =>
      match json_loads decoded with
      | none => ["  Data parsing error: JSONDecodeError"]
      | some json_data => ["  JSON Data: " ++ pyRepr json_data]
  else if startswith ct "application/x-protobuf" then
    ["  Protocol Buffers data (binary): " ++ toString post_data.length ++ " bytes",
     "  Sample: " ++ pyBytesRepr (post_data.take 100) ++ "..."]
  else
    ["  Raw data: " ++ strTake (utf8DecodeIgnore post_data) 200 ++ "..."]

/-- The placeholder of the dead `except` arm of the log-write block (line
52). -/
def binaryPlaceholder (data_size : Nat) : String :=
  "Binary data: " ++ toString data_size ++ " bytes\n"

/-- The four `f.write` calls of the log-write block (lines 45-53).  The
`try` body runs `post_data.decode('utf-8', errors='ignore')`, which is total,
so the `except` arm writing `binaryPlaceholder` is unreachable. -/
def logEntryWrites (ts : String) (r : Request) (post_data : List Nat) :
    List String :=
  [ts ++ " - " ++ toString post_data.length ++ " bytes from " ++ r.client_ip ++ "\n",
   "Headers: " ++ dictRepr r.headers ++ "\n",
   "Data: " ++ utf8DecodeIgnore post_data ++ "\n",
   "---\n"]

/-- `MockTelemetryHandler.do_POST`.  `ts` is the `time.strftime` result.  An
uncaught exception escaping the handler — only the `int()` call can raise
one — is `Except.error`; the base server then closes the connection without
any HTTP response. -/
def do_POST (ts : String) (r : Request) : Except String PostResult :=
  match contentLengthOf r with
  | none => .error "ValueError"
  | some content_length =>
    let post_data := readBody r.stream content_length
    let data_size := post_data.length
    .ok
      { console :=
          ["[" ++ ts ++ "] INTERCEPTED telemetry from " ++ r.client_ip,
           "  Size: " ++ toString data_size ++ " bytes",
           "  Headers: " ++ dictRepr r.headers] ++
          analyzeContent r.headers post_data
        logWrites := logEntryWrites ts r post_data
        post_data := post_data
        response :=
          { status := 200
            contentType := "application/json"
            body := ok_response_body ts } }

structure GetResult where
  console : List String
  logWrites : List String
  response : Response
deriving DecidableEq, Repr

/-- `MockTelemetryHandler.do_GET`: console notice, fixed health response, no
file access. -/
def do_GET (ts client_ip path : String) : GetResult :=
  { console := ["[" ++ ts ++ "] GET request from " ++ client_ip ++ ": " ++ path]
    logWrites := []
    response :=
      { status := 200
        contentType := "application/json"
        body := health_response_body ts } }

/-! ## Listener bootstrap (`start_server`, `main`) -/

/-- Outcome of `socketserver.TCPServer(("127.0.0.1", port), ...)`: either
the bind succeeds and the listener serves forever, or it raises `OSError`
with some `errno`.  (CPython's errno 98 is `EADDRINUSE`.) -/
inductive BindOutcome where
  | ok
  | osError (errno : Nat) (msg : String)
deriving DecidableEq, Repr

structure ServerResult where
  console : List String
  started : Bool
deriving DecidableEq, Repr

/-- `start_server(port, server_name)` given the bind outcome for that
port. -/
def start_server (port : Nat) (server_name : String) (b : BindOutcome) :
    ServerResult :=
  match b with
  | .ok =>
    { console := ["Mock " ++ server_name ++ " server running on localhost:" ++
        toString port]
      started := true }
  | .osError errno e =>
    if errno = 98 then
      { console := ["Port " ++ toString port ++ " already in use - " ++
          server_name ++ " server not started"]
        started := false }
    else
      { console := ["Error starting " ++ server_name ++ " server on port " ++
          toString port ++ ": " ++ e]
        started := false }

/-- The fixed port table of `main`. -/
def servers : List (Nat × String) :=
  [(4317, "OpenTelemetry GRPC"), (4318, "OpenTelemetry HTTP"), (16686, "Jaeger UI")]

/-- `main` starts one `start_server` thread per entry of `servers`; each
thread's outcome depends only on the bind result for its own port. -/
def runListeners (bind : Nat → BindOutcome) : List ServerResult :=
  servers.map (fun s => start_server s.1 s.2 (bind s.1))

/-! ## Log-file lifecycle

`intercepted_telemetry.log` is modelled as the list of strings written to
it.  `main` opens it with mode `'w'` (truncate) exactly once, before any
listener starts; every `do_POST` opens it with mode `'a'` (append). -/

/-- The two header writes of `main` (lines 110-112). -/
def log_header_writes (ts : String) : List String :=
  ["Mock Telemetry Server Log Started: " ++ ts ++ "\n",
   String.mk (List.replicate 50 '=') ++ "\n"]

inductive FileEvent where
  | openTruncate (writes : List String)
  | openAppend (writes : List String)
deriving DecidableEq, Repr

def applyEvent (file : List String) : FileEvent → List String
  | .openTruncate ws => ws
  | .openAppend ws => file ++ ws

def runFile (file0 : List String) (evs : List FileEvent) : List String :=
  evs.foldl applyEvent file0

/-- What one POST (paired with its `time.strftime` timestamp) writes to the
log file.  A POST whose `int()` call raises crashes before the file is
opened and writes nothing. -/
def postLogWrites (p : String × Request) : List String :=
  match do_POST p.1 p.2 with
  | .ok res => res.logWrites
  | .error _ => []

/-- The sequence of log-file events of one process run handling the given
POST requests: one truncating open from `main`, then one appending open per
handled POST. -/
def processEvents (ts : String) (posts : List (String × Request)) :
    List FileEvent :=
  .openTruncate (log_header_writes ts) ::
    posts.map (fun p => .openAppend (postLogWrites p))

/-- Contents of the log file after one process run, starting from whatever
the file held before. -/
def processLog (ts : String) (posts : List (String × Request))
    (file0 : List String) : List String :=
  runFile file0 (processEvents ts posts)

/-! ## Concrete test fixtures -/

def ts0 : String := "2025-09-06 12:00:00"

/-- `POST` with `Content-Type: application/json` and body `{"a":1}`. -/
def reqJson : Request :=
  { headers := [("Content-Type", "application/json"), ("Content-Length", "7")]
    stream := [0x7B, 0x22, 0x61, 0x22, 0x3A, 0x31, 0x7D]
    client_ip := "127.0.0.1" }

/-- `POST` with a non-numeric `Content-Length` header. -/
def reqBadCL : Request :=
  { headers := [("Content-Length", "abc")], stream := [], client_ip := "127.0.0.1" }

/-- Another `POST` with a non-numeric `Content-Length` header. -/
def reqBadCL2 : Request :=
  { headers := [("Content-Length", "12xy")]
    stream := [0x68, 0x69]
    client_ip := "127.0.0.1" }

/-- `POST` with content-type `application/x-protobuf` and a body that is not
valid UTF-8 (`0xFF` cannot appear in UTF-8 text). -/
def reqProto : Request :=
  { headers := [("Content-Type", "application/x-protobuf"), ("Content-Length", "3")]
    stream := [0xFF, 0x68, 0x69]
    client_ip := "127.0.0.1" }

/-- `POST` with no headers at all, in particular no `Content-Length`. -/
def reqNoCL : Request :=
  { headers := [], stream := [], client_ip := "127.0.0.1" }

/-- Bind outcomes: every port free. -/
def bindAllOk : Nat → BindOutcome := fun _ => .ok

/-- Bind outcomes: port 4318 already in use, the others free. -/
def bindBusy4318 : Nat → BindOutcome := fun p =>
  if p = 4318 then .osError 98 "[Errno 98] Address already in use" else .ok

/-- The `PostResult` inside an `Except.ok`, with a dummy default so that
fixture results can be named. -/
def okValue (e : Except String PostResult) : PostResult :=
  match e with
  | .ok res => res
  | .error _ =>
    { console := [], logWrites := [], post_data := []
      response := { status := 0, contentType := "", body := "" } }

def resJson : PostResult := okValue (do_POST ts0 reqJson)

def resProto : PostResult := okValue (do_POST ts0 reqProto)

/-! ## Helper lemmas -/

/-- Once the `int()` call has succeeded, `do_POST` runs to completion and
every observable is determined by the timestamp, the request and the parsed
content length. -/
theorem do_POST_ok_spec (ts : String) (r : Request) (n : Int)
    (h : contentLengthOf r = some n) :
    do_POST ts r = .ok
      { console :=
          ["[" ++ ts ++ "] INTERCEPTED telemetry from " ++ r.client_ip,
           "  Size: " ++ toString (readBody r.stream n).length ++ " bytes",
           "  Headers: " ++ dictRepr r.headers] ++
          analyzeContent r.headers (readBody r.stream n)
        logWrites := logEntryWrites ts r (readBody r.stream n)
        post_data := readBody r.stream n
        response :=
          { status := 200
            contentType := "application/json"
            body := ok_response_body ts } } := by
  simp [do_POST, h]

/-- The response of any completed `do_POST` is the fixed acknowledgment. -/
theorem do_POST_response_fixed {ts : String} {r : Request} {res : PostResult}
    (h : do_POST ts r = .ok res) :
    res.response =
      { status := 200, contentType := "application/json",
        body := ok_response_body ts } := by
  unfold do_POST at h
  cases hc : contentLengthOf r with
  | none => rw [hc] at h; exact absurd h (by simp)
  | some n =>
    rw [hc] at h
    simp only [Except.ok.injEq] at h
    rw [← h]

/-- A `Data: `-line never equals the binary placeholder of the dead
`except` arm. -/
theorem dataLine_ne_placeholder (s : String) (m : Nat) :
    "Data: " ++ s ++ "\n" ≠ binaryPlaceholder m := by
  intro h
  have h2 := congrArg String.data h
  simp only [binaryPlaceholder, String.data_append] at h2
  simp at h2

/-- Appending opens fold to one concatenation. -/
theorem runFile_appends (ps : List (String × Request)) (f : List String) :
    runFile f (ps.map (fun p => FileEvent.openAppend (postLogWrites p))) =
      f ++ (ps.map postLogWrites).flatten := by
  induction ps generalizing f with
  | nil => simp [runFile]
  | cons p t ih =>
    simp only [List.map_cons, runFile, List.foldl_cons, applyEvent] at *
    rw [ih, List.flatten_cons, List.append_assoc]

/-- The log file after one process run: the header, then every handled
POST's entry, independent of the file's previous contents. -/
theorem processLog_eq (ts : String) (posts : List (String × Request))
    (file0 : List String) :
    processLog ts posts file0 =
      log_header_writes ts ++ (posts.map postLogWrites).flatten := by
  simp only [processLog, processEvents, runFile, List.foldl_cons, applyEvent]
  exact runFile_appends posts _

/-! ## Claim C1 -/

/-- Claim C1, counterexample: a POST whose `Content-Length` header is the
non-numeric string `"abc"` makes `int()` raise `ValueError`; the exception
escapes `do_POST`, so no 200 response (and no response at all) reaches the
client. -/
theorem C1_counterexample : do_POST ts0 reqBadCL = .error "ValueError" := rfl

/-- Claim C1 (amended): for every POST request whose `Content-Length` header
is absent or parses as a Python integer, the handler responds HTTP 200 with
content-type `application/json` and exactly the body
`{"status": "ok", "message": "telemetry received", "timestamp": <ts>}`; no
error is surfaced to the client. -/
theorem C1_response_ok (ts : String) (r : Request) (n : Int)
    (h : contentLengthOf r = some n) :
    (do_POST ts r).map PostResult.response =
      .ok { status := 200, contentType := "application/json",
            body := ok_response_body ts } := by
  rw [do_POST_ok_spec ts r n h]
  rfl

theorem C1_response_ok_witness :
    contentLengthOf reqJson = some 7 ∧
    (do_POST ts0 reqJson).map PostResult.response =
      .ok { status := 200, contentType := "application/json",
            body := ok_response_body ts0 } :=
  ⟨rfl, C1_response_ok ts0 reqJson 7 rfl⟩

/-! ## Claim C2 -/

/-- Claim C2, counterexample: a present but non-numeric `Content-Length` is
not treated as a zero-length body; `int("12xy")` raises `ValueError` and the
handler dies instead of answering. -/
theorem C2_counterexample :
    headerGet reqBadCL2.headers "Content-Length" = some "12xy" ∧
    pythonInt "12xy" = none ∧
    do_POST ts0 reqBadCL2 = .error "ValueError" :=
  ⟨rfl, rfl, rfl⟩

/-- Claim C2 (amended): with the `Content-Length` header absent the body is
read as zero-length and the request is handled without error, the log entry
recording byte count 0; with a header value that parses as a nonnegative
integer `n`, exactly `n` bytes are read from the stream.  (A present
non-numeric value raises `ValueError` instead of being treated as 0, per the
counterexample.) -/
theorem C2_content_length (ts : String) (r : Request) :
    (headerGet r.headers "Content-Length" = none →
      (do_POST ts r).map PostResult.post_data = .ok [] ∧
      (do_POST ts r).map (fun res => res.logWrites.head?) =
        .ok (some (ts ++ " - " ++ toString (0 : Nat) ++ " bytes from " ++
          r.client_ip ++ "\n"))) ∧
    (∀ n : Int, contentLengthOf r = some n → 0 ≤ n →
      (do_POST ts r).map PostResult.post_data = .ok (r.stream.take n.toNat)) := by
  constructor
  · intro h
    have hc : contentLengthOf r = some 0 := by simp [contentLengthOf, h]
    rw [do_POST_ok_spec ts r 0 hc]
    exact ⟨rfl, rfl⟩
  · intro n hn h0
    rw [do_POST_ok_spec ts r n hn]
    simp only [Except.map]
    rw [readBody, if_neg (not_lt.mpr h0)]

theorem C2_content_length_witness :
    headerGet reqNoCL.headers "Content-Length" = none ∧
    (do_POST ts0 reqNoCL).map PostResult.post_data = .ok [] ∧
    (do_POST ts0 reqNoCL).map (fun res => res.logWrites.head?) =
      .ok (some "2025-09-06 12:00:00 - 0 bytes from 127.0.0.1\n") :=
  ⟨rfl, ((C2_content_length ts0 reqNoCL).1 rfl).1,
    ((C2_content_length ts0 reqNoCL).1 rfl).2⟩

/-! ## Claim C3 -/

/-- Claim C3, counterexample: for a POST with non-UTF-8 body
`[0xFF, 'h', 'i']` and content-type `application/x-protobuf`, the log entry
contains `Data: hi` — the UTF-8 decoding with invalid bytes ignored — and
not the binary-data placeholder: `decode('utf-8', errors='ignore')` never
raises, so the `except` arm writing `Binary data: <n> bytes` is dead
code. -/
theorem C3_counterexample :
    (do_POST ts0 reqProto).map PostResult.logWrites =
      .ok ["2025-09-06 12:00:00 - 3 bytes from 127.0.0.1\n",
           "Headers: \x7b'Content-Type': 'application/x-protobuf', 'Content-Length': '3'\x7d\n",
           "Data: hi\n",
           "---\n"] ∧
    binaryPlaceholder 3 ∉
      ["2025-09-06 12:00:00 - 3 bytes from 127.0.0.1\n",
       "Headers: \x7b'Content-Type': 'application/x-protobuf', 'Content-Length': '3'\x7d\n",
       "Data: hi\n",
       "---\n"] :=
  ⟨rfl, by decide⟩

/-- Claim C3 (amended): a POST whose body is not valid UTF-8 does not crash
the handler; the appended log entry carries the correct byte count in its
first line, and its data line holds the UTF-8 decoding of the body with
invalid bytes ignored — never the binary-data placeholder, which no run of
the handler can write. -/
theorem C3_log_decoded (ts : String) (r : Request) (n : Int)
    (h : contentLengthOf r = some n) :
    (do_POST ts r).isOk = true ∧
    (do_POST ts r).map PostResult.logWrites =
      .ok [ts ++ " - " ++ toString (readBody r.stream n).length ++
             " bytes from " ++ r.client_ip ++ "\n",
           "Headers: " ++ dictRepr r.headers ++ "\n",
           "Data: " ++ utf8DecodeIgnore (readBody r.stream n) ++ "\n",
           "---\n"] ∧
    (∀ m : Nat,
      "Data: " ++ utf8DecodeIgnore (readBody r.stream n) ++ "\n" ≠
        binaryPlaceholder m) := by
  refine ⟨?_, ?_, fun m => dataLine_ne_placeholder _ m⟩
  · rw [do_POST_ok_spec ts r n h]; rfl
  · rw [do_POST_ok_spec ts r n h]; rfl

theorem C3_log_decoded_witness :
    contentLengthOf reqProto = some 3 ∧
    (do_POST ts0 reqProto).isOk = true ∧
    (do_POST ts0 reqProto).map PostResult.logWrites =
      .ok ["2025-09-06 12:00:00 - 3 bytes from 127.0.0.1\n",
           "Headers: \x7b'Content-Type': 'application/x-protobuf', 'Content-Length': '3'\x7d\n",
           "Data: hi\n",
           "---\n"] :=
  ⟨rfl, (C3_log_decoded ts0 reqProto 3 rfl).1, (C3_log_decoded ts0 reqProto 3 rfl).2.1⟩

/-! ## Claim C4 -/

/-- Claim C4: content interpretation for the console report follows the
declared content-type in priority order — `application/json` first (UTF-8
decode then JSON parse, printing the parsed structure), then
`application/x-protobuf` (fixed binary notice plus the first 100 raw bytes),
otherwise UTF-8 decode ignoring invalid bytes, printing at most the first
200 characters; a decode or JSON failure yields a parsing-error line and
never aborts the request. -/
theorem C4_content_priority (ts : String) (r : Request) (n : Int)
    (h : contentLengthOf r = some n) :
    (do_POST ts r).isOk = true ∧
    (do_POST ts r).map (fun res => res.console.drop 3) =
      .ok (analyzeContent r.headers (readBody r.stream n)) ∧
    (startswith ((headerGet r.headers "Content-Type").getD "") "application/json" = true →
      (∀ s j, utf8DecodeStrict (readBody r.stream n) = some s →
        json_loads s = some j →
        analyzeContent r.headers (readBody r.stream n) =
          ["  JSON Data: " ++ pyRepr j]) ∧
      (utf8DecodeStrict (readBody r.stream n) = none →
        analyzeContent r.headers (readBody r.stream n) =
          ["  Data parsing error: UnicodeDecodeError"]) ∧
      (∀ s, utf8DecodeStrict (readBody r.stream n) = some s →
        json_loads s = none →
        analyzeContent r.headers (readBody r.stream n) =
          ["  Data parsing error: JSONDecodeError"])) ∧
    (startswith ((headerGet r.headers "Content-Type").getD "") "application/json" = false →
      startswith ((headerGet r.headers "Content-Type").getD "") "application/x-protobuf" = true →
      analyzeContent r.headers (readBody r.stream n) =
        ["  Protocol Buffers data (binary): " ++
           toString (readBody r.stream n).length ++ " bytes",
         "  Sample: " ++ pyBytesRepr ((readBody r.stream n).take 100) ++ "..."]) ∧
    (startswith ((headerGet r.headers "Content-Type").getD "") "application/json" = false →
      startswith ((headerGet r.headers "Content-Type").getD "") "application/x-protobuf" = false →
      analyzeContent r.headers (readBody r.stream n) =
        ["  Raw data: " ++ strTake (utf8DecodeIgnore (readBody r.stream n)) 200 ++ "..."]) := by
  refine ⟨?_, ?_, ?_, ?_, ?_⟩
  · rw [do_POST_ok_spec ts r n h]; rfl
  · rw [do_POST_ok_spec ts r n h]; rfl
  · intro hct
    refine ⟨?_, ?_, ?_⟩
    · intro s j hs hj; simp [analyzeContent, hct, hs, hj]
    · intro hs; simp [analyzeContent, hct, hs]
    · intro s hs hj; simp [analyzeContent, hct, hs, hj]
  · intro h1 h2; simp [analyzeContent, h1, h2]
  · intro h1 h2; simp [analyzeContent, h1, h2]

theorem C4_content_priority_witness :
    contentLengthOf reqJson = some 7 ∧
    (do_POST ts0 reqJson).isOk = true ∧
    analyzeContent reqJson.headers (readBody reqJson.stream 7) =
      ["  JSON Data: \x7b'a': 1\x7d"] :=
  ⟨rfl, (C4_content_priority ts0 reqJson 7 rfl).1,
    ((C4_content_priority ts0 reqJson 7 rfl).2.2.1 rfl).1 "\x7b\"a\":1\x7d"
      (PyJson.obj (PyJsonObj.ocons "a" (PyJson.int 1) PyJsonObj.onil)) rfl rfl⟩

/-! ## Claim C5 -/

/-- Claim C5: the log file is truncated and re-initialized with its header
exactly once at process start, and every later write during the run is an
append — so a second run's final file does not depend on what the first run
left (re-running leaves only the second run's header and entries), the file
always starts with the header, and the file after any first `k` POSTs is a
prefix of the final file. -/
theorem C5_log_lifecycle (ts ts2 : String)
    (posts posts2 : List (String × Request))
    (file0 file0' : List String) (k : Nat) :
    processLog ts2 posts2 (processLog ts posts file0) = processLog ts2 posts2 [] ∧
    processLog ts posts file0 = processLog ts posts file0' ∧
    (∃ rest, log_header_writes ts ++ rest = processLog ts posts file0) ∧
    (∃ grown, processLog ts (posts.take k) file0 ++ grown =
      processLog ts posts file0) := by
  refine ⟨?_, ?_, ?_, ?_⟩
  · rw [processLog_eq, processLog_eq]
  · rw [processLog_eq, processLog_eq]
  · exact ⟨(posts.map postLogWrites).flatten, (processLog_eq ts posts file0).symm⟩
  · refine ⟨((posts.drop k).map postLogWrites).flatten, ?_⟩
    rw [processLog_eq, processLog_eq, List.append_assoc]
    congr 1
    rw [← List.flatten_append, ← List.map_append, List.take_append_drop]

/-! ## Claim C6 -/

/-- Claim C6: every GET request gets HTTP 200, content-type
`application/json`, and exactly the health JSON body; the handler's only
side effect beyond the response is one console line — it performs no log
file write. -/
theorem C6_get_health (ts client_ip path : String) :
    do_GET ts client_ip path =
      { console := ["[" ++ ts ++ "] GET request from " ++ client_ip ++ ": " ++ path]
        logWrites := []
        response := { status := 200, contentType := "application/json",
                      body := health_response_body ts } } ∧
    (do_GET ts client_ip path).logWrites = [] :=
  ⟨rfl, rfl⟩

/-! ## Claim C7 -/

/-- Claim C7: a bind failure with errno 98 (address in use) prints a warning
naming the port and label and skips that listener; any other OS error prints
an error naming port, label and cause and the process continues; and a
listener's outcome depends only on its own port's bind result, so other
listeners are unaffected. -/
theorem C7_bind_failure (port : Nat) (name msg : String) (errno : Nat)
    (bind1 bind2 : Nat → BindOutcome) (i : Nat) (hi : i < servers.length)
    (hagree : bind1 (servers.get ⟨i, hi⟩).1 = bind2 (servers.get ⟨i, hi⟩).1)
    (hne : errno ≠ 98) :
    start_server port name (.osError 98 msg) =
      { console := ["Port " ++ toString port ++ " already in use - " ++ name ++
          " server not started"]
        started := false } ∧
    start_server port name (.osError errno msg) =
      { console := ["Error starting " ++ name ++ " server on port " ++
          toString port ++ ": " ++ msg]
        started := false } ∧
    (runListeners bind1)[i]? = (runListeners bind2)[i]? := by
  refine ⟨rfl, ?_, ?_⟩
  · simp [start_server, hne]
  · simp only [runListeners, List.getElem?_map]
    rw [List.getElem?_eq_getElem hi]
    rw [List.get_eq_getElem] at hagree
    simp [hagree]

theorem C7_bind_failure_witness :
    bindAllOk (servers.get ⟨0, by decide⟩).1 =
      bindBusy4318 (servers.get ⟨0, by decide⟩).1 ∧
    (13 : Nat) ≠ 98 ∧
    (runListeners bindAllOk)[0]? = (runListeners bindBusy4318)[0]? :=
  ⟨rfl, by decide,
    (C7_bind_failure 4318 "OpenTelemetry HTTP" "permission denied" 13
      bindAllOk bindBusy4318 0 (by decide) rfl (by decide)).2.2⟩

/-! ## Claim C8 -/

/-- Claim C8, counterexample: the log entry for a POST consists of four
writes, not five — the timestamp is not on its own line but combined with
the byte count and client IP in the entry's first line. -/
theorem C8_counterexample :
    (do_POST ts0 reqJson).map
        (fun res => (res.logWrites.length, res.logWrites.head?)) =
      .ok (4, some "2025-09-06 12:00:00 - 7 bytes from 127.0.0.1\n") := rfl

/-- Claim C8 (amended): every appended log entry consists, in order, of a
combined timestamp/byte-count/client-IP line, a headers line, a data line,
and a separator line `---` — four writes, the last being the separator. -/
theorem C8_entry_format (ts : String) (r : Request) (n : Int)
    (h : contentLengthOf r = some n) :
    (do_POST ts r).map PostResult.logWrites =
      .ok [ts ++ " - " ++ toString (readBody r.stream n).length ++
             " bytes from " ++ r.client_ip ++ "\n",
           "Headers: " ++ dictRepr r.headers ++ "\n",
           "Data: " ++ utf8DecodeIgnore (readBody r.stream n) ++ "\n",
           "---\n"] ∧
    (do_POST ts r).map (fun res => res.logWrites.length) = .ok 4 ∧
    (do_POST ts r).map (fun res => res.logWrites.getLast?) = .ok (some "---\n") := by
  rw [do_POST_ok_spec ts r n h]
  exact ⟨rfl, rfl, rfl⟩

theorem C8_entry_format_witness :
    contentLengthOf reqJson = some 7 ∧
    (do_POST ts0 reqJson).map (fun res => res.logWrites.length) = .ok 4 ∧
    (do_POST ts0 reqJson).map (fun res => res.logWrites.getLast?) =
      .ok (some "---\n") :=
  ⟨rfl, (C8_entry_format ts0 reqJson 7 rfl).2.1,
    (C8_entry_format ts0 reqJson 7 rfl).2.2⟩

/-! ## Claim C10 -/

/-- Claim C10: any two POST requests handled at the same wall-clock
timestamp receive identical responses (status, content-type and body),
whatever their bodies, headers, content-types or client addresses: request
content never flows into the response. -/
theorem C10_response_noninterference (ts : String) (r1 r2 : Request)
    (res1 res2 : PostResult)
    (h1 : do_POST ts r1 = .ok res1) (h2 : do_POST ts r2 = .ok res2) :
    res1.response = res2.response := by
  rw [do_POST_response_fixed h1, do_POST_response_fixed h2]

theorem C10_response_noninterference_witness :
    do_POST ts0 reqJson = .ok resJson ∧
    do_POST ts0 reqProto = .ok resProto ∧
    resJson.response = resProto.response :=
  ⟨rfl, rfl,
    C10_response_noninterference ts0 reqJson reqProto resJson resProto rfl rfl⟩

end MockTelemetry
